import Mathlib

/-!
# Verification of the notedeck timeline view

Shallow embedding of `crates/notedeck_columns/src/ui/timeline.rs`:
the per-frame timeline rendering pipeline (`timeline_ui`), the tab
selector (`tabs_ui`, `shrink_range_to_width`) and the virtualized row
loop of `TimelineTabView::show`.

Modelling conventions:
* UI side effects are tracked explicitly: log calls (`tracing::error!`,
  `tracing::warn!`) become `LogEvent`s and painting becomes `PaintEvent`s.
* A Rust panic (an `expect`, an out-of-bounds index, or an underflowing
  `usize` subtraction, which aborts in debug builds) is modelled as
  `Except.error` carrying a `Panic` value; normal returns are `Except.ok`.
* `f32` pixel arithmetic is modelled over `ℚ`; the literal `1.15` is
  written `23 / 20`.
* External collaborators (the record store, the mute predicate, the
  per-note renderer, text measurement, egui's animation state and the
  user's click this frame) are environment parameters.
-/

namespace NotedeckTimeline

abbrev NoteKey := Nat
abbrev NoteId := Nat

/-- The opaque user action a rendered note can yield (`NoteAction`). -/
abbrev NoteAction := Nat

/-- A resolved note record: its store key and its note id
(used for thread-root resolution). -/
structure Note where
  key : NoteKey
  id : NoteId
deriving DecidableEq

/-- `ViewFilter`: closed variant set selecting a tab's content. -/
inductive ViewFilter
  | Notes
  | NotesAndReplies
deriving DecidableEq

/-- The tab label text shown by the per-segment closure of `tabs_ui`. -/
def ViewFilter.label : ViewFilter → String
  | .Notes => "Notes"
  | .NotesAndReplies => "Notes & Replies"

/-- Modelled from the spec: an `ItemRef` / `NoteRef` is a stable item key
plus list position; the renderer under `src/` reads only `.key`. -/
structure NoteRef where
  key : NoteKey
deriving DecidableEq

/-- Modelled from the spec: a `TimelineTab` owns an ordered sequence of
item refs and a `ViewFilter` tag.  Its `ListState` scroll bookkeeping is
host-owned and enters the model only through the list of visible row
positions the virtualizer supplies each frame. -/
structure TimelineTab where
  notes : List NoteRef
  filter : ViewFilter
deriving DecidableEq

/-- Modelled from the spec: a `Timeline` owns a fixed small set of
`TimelineTab`s plus a `selected_view` index into that set. -/
structure Timeline where
  id : Nat
  views : List TimelineTab
  selected_view : Nat
deriving DecidableEq

/-- Modelled from the spec: the caller's set of columns/timelines. -/
structure Columns where
  timelines : List Timeline
deriving DecidableEq

/-- Modelled from the spec: `Columns::find_timeline_mut` — look a timeline
up by its id among the caller's columns. -/
def find_timeline (cols : Columns) (timeline_id : Nat) : Option Timeline :=
  cols.timelines.find? (fun t => t.id == timeline_id)

/-- Write back a timeline obtained from `find_timeline` after mutating it
(the `timeline.selected_view = tabs_ui(..)` assignment acts through the
mutable borrow). -/
def set_timeline (cols : Columns) (timeline_id : Nat) (t' : Timeline) : Columns :=
  ⟨cols.timelines.map (fun t => if t.id == timeline_id then t' else t)⟩

/-- Events emitted through the `tracing` facade. -/
inductive LogEvent
  | errorLog (msg : String)
  | warnLog (msg : String)
deriving DecidableEq

/-- An inclusive horizontal range (`egui::Rangef`), over `ℚ`. -/
structure Rangef where
  min : ℚ
  max : ℚ
deriving DecidableEq

/-- `Rangef::span`. -/
def Rangef.span (r : Rangef) : ℚ := r.max - r.min

/-- What the view paints this frame. -/
inductive PaintEvent
  | tabLabel (i : Nat) (txt : String)
  | hline
  | underline (range : Rangef) (y : ℚ)
  | note (ind : Nat)
deriving DecidableEq

/-- A Rust panic escaping the render call. -/
inductive Panic
  | txnFailed (msg : String)
  | tabSelOut
  | notesIndexOut
  | subUnderflow
deriving DecidableEq

/-! ## Tab selector (`tabs_ui`, src lines 139-208) -/

/-- `shrink_range_to_width` (src lines 216-224): re-center a range of the
given width on the midpoint of `range`.  Note: no clamping of any kind. -/
def shrink_range_to_width (range : Rangef) (width : ℚ) : Rangef :=
  let midpoint := (range.min + range.max) / 2
  let half_width := width / 2
  ⟨midpoint - half_width, midpoint + half_width⟩

/-- Environment of `tabs_ui`: the user's click this frame, text/layout
measurement (`get_label_width`, the label rect of each segment, the
rounded underline baseline) and egui's per-frame animation state
(`animate_value_with_time` toward a target). -/
structure TabsEnv where
  click : Option Nat
  segmentRange : Nat → Rangef
  labelWidth : String → ℚ
  underlineY : Nat → ℚ
  animatePos : ℚ → ℚ
  animateSize : ℚ → ℚ

/-- Modelled from the spec: the selection the `egui_tabs` widget reports
after this frame's interaction — "Clicking/activating a segment sets
`new_index` to that segment's position; otherwise `new_index ==
current_index`".  `tabs_ui` reads it as `tab_res.selected()`. -/
def tabsSelected (click : Option Nat) (selected : Nat) : Option Nat :=
  match click with
  | some i => some i
  | none => some selected

/-- The per-segment closure of `tabs_ui` (src lines 151-173): for the
selected segment, the target underline span is
`shrink_range_to_width(label_rect.x_range(), get_label_width(txt) * 1.15)`
paired with the underline baseline; every other segment yields
`(Rangef::new(0.0, 0.0), 0.0)`. -/
def tab_cell (env : TabsEnv) (selResult : Nat) (views : List TimelineTab)
    (i : Nat) : Rangef × ℚ :=
  match views[i]? with
  | none => (⟨0, 0⟩, 0)
  | some v =>
    let txt := v.filter.label
    if i = selResult then
      (shrink_range_to_width (env.segmentRange i) (env.labelWidth txt * (23 / 20)),
        env.underlineY i)
    else
      (⟨0, 0⟩, 0)

/-- `tabs_ui` (src lines 139-208).  Modelled from the spec where the
`egui_tabs` widget is concerned: it renders `len(views)` segments, running
the per-segment closure once per segment, so `tab_res.inner()` has one
entry per tab.  The source then computes
`sel = tab_res.selected().unwrap_or_default()` and reads
`tab_res.inner()[sel as usize]` — an unguarded index that panics when no
segment exists at `sel`.  Returns the new selected index and the paints
(labels, the full-width hline, the animated underline). -/
def tabs_ui (env : TabsEnv) (selected : Nat) (views : List TimelineTab) :
    Except Panic Nat × List PaintEvent :=
  let n := views.length
  let selResult := (tabsSelected env.click selected).getD 0
  let inner := (List.range n).map (tab_cell env selResult views)
  let labelPaints := (List.range n).map (fun i =>
    PaintEvent.tabLabel i ((views[i]?).elim "" (fun v => v.filter.label)))
  let pres := labelPaints ++ [PaintEvent.hline]
  match inner[selResult]? with
  | none => (.error .tabSelOut, pres)
  | some cell =>
    let underline := cell.1
    let underline_y := cell.2
    let underline_width := underline.span
    let x := env.animatePos underline.min
    let w := env.animateSize underline_width
    (.ok selResult, pres ++ [PaintEvent.underline ⟨x, x + w⟩ underline_y])

/-! ## Row loop of `TimelineTabView::show` (src lines 261-317) -/

/-- Checked `usize` subtraction: `none` models the underflow panic of a
debug build. -/
def checkedSub (a b : Nat) : Option Nat :=
  if b ≤ a then some (a - b) else none

/-- The display-position → logical-index computation of the row closure
(src lines 274-278): `if reversed { len - start_index - 1 } else
{ start_index }`, with both `usize` subtractions checked. -/
def computeInd (reversed : Bool) (len start_index : Nat) : Option Nat :=
  if reversed then
    match checkedSub len start_index with
    | some d => checkedSub d 1
    | none => none
  else
    some start_index

/-- The same map as a total function on the valid domain `[0, N)`
(`Nat` subtraction truncates). -/
def indexMap (reversed : Bool) (N i : Nat) : Nat :=
  if reversed then N - i - 1 else i

/-- Environment of `TimelineTabView::show`: the record store read against
the frame's transaction (`ndb.get_note_by_key`), thread-root resolution
(`root_note_id_from_selected_id`), the mute predicate, and the external
single-note renderer (`NoteView::show`), exposing the action it yields. -/
structure ShowEnv where
  resolve : NoteKey → Option Note
  rootId : NoteId → NoteId
  isMuted : Note → NoteId → Bool
  render : Note → Option NoteAction

/-- One invocation of the row closure (src lines 270-313) at display
position `start_index`, threading the `action` accumulator.  Returns the
new accumulator and `rows_consumed`, plus logs and paints.  The
`context_selection` post-processing of a rendered note is side-effect
free for this model and is omitted. -/
def show_row (env : ShowEnv) (tab : TimelineTab) (reversed : Bool) (len : Nat)
    (action : Option NoteAction) (start_index : Nat) :
    Except Panic (Option NoteAction × Nat) × List LogEvent × List PaintEvent :=
  match computeInd reversed len start_index with
  | none => (.error .subUnderflow, [], [])
  | some ind =>
    match tab.notes[ind]? with
    | none => (.error .notesIndexOut, [], [])
    | some noteRef =>
      match env.resolve noteRef.key with
      | none => (.ok (action, 0), [.warnLog "failed to query note"], [])
      | some note =>
        let muted := env.isMuted note (env.rootId note.id)
        if !muted then
          let resp := env.render note
          let action' := match resp with
            | some a => some a
            | none => action
          (.ok (action', 1), [], [.note ind, .hline])
        else
          (.ok (action, 1), [], [])

/-- Modelled from the spec: the virtualizer (`ui_custom_layout`) invokes
the row closure once per visible row position, in increasing
display-position order; a row's panic aborts the frame.  Accumulates the
action, the total `rows_consumed`, the logs and the paints. -/
def show_rows (env : ShowEnv) (tab : TimelineTab) (reversed : Bool) (len : Nat)
    (action : Option NoteAction) (positions : List Nat) :
    Except Panic (Option NoteAction × Nat) × List LogEvent × List PaintEvent :=
  match positions with
  | [] => (.ok (action, 0), [], [])
  | p :: rest =>
    let r := show_row env tab reversed len action p
    match r.1 with
    | .error e => (.error e, r.2.1, r.2.2)
    | .ok (action', consumed) =>
      let s := show_rows env tab reversed len action' rest
      match s.1 with
      | .error e => (.error e, r.2.1 ++ s.2.1, r.2.2 ++ s.2.2)
      | .ok (action'', total) =>
        (.ok (action'', consumed + total), r.2.1 ++ s.2.1, r.2.2 ++ s.2.2)

/-- `TimelineTabView::show` (src lines 261-317): captures
`len = tab.notes.len()` once, starts with `action = None`, and drives the
virtualized row loop over the display positions supplied this frame (a
full-viewport traversal is `List.range len`). -/
def tabViewShow (env : ShowEnv) (tab : TimelineTab) (reversed : Bool)
    (positions : List Nat) :
    Except Panic (Option NoteAction × Nat) × List LogEvent × List PaintEvent :=
  show_rows env tab reversed tab.notes.length none positions

/-! ## `timeline_ui` (src lines 72-137) -/

/-- The `error!` message of both timeline lookups. -/
def missingMsg : String :=
  "tried to render timeline in column, but timeline was missing"

/-- `timeline_ui` (src lines 72-137).  `txn` models
`Transaction::new(ndb)`: `none` is creation failure, on which the source
calls `.expect("failed to create txn")` — a panic, modelled as
`Except.error`.  Control flow: first timeline lookup (early `return None`
with an `error!` log on failure), `tabs_ui` and the `selected_view`
write-back, then inside the scroll area a second lookup, the transaction,
`timeline.current_view()` (`views[selected_view]`), and the row loop. -/
def timeline_ui (txn : Option Unit) (cols : Columns) (timeline_id : Nat)
    (tenv : TabsEnv) (senv : ShowEnv) (reversed : Bool) (positions : List Nat) :
    Except Panic (Option NoteAction) × List LogEvent × List PaintEvent :=
  match find_timeline cols timeline_id with
  | none => (.ok none, [.errorLog missingMsg], [])
  | some timeline =>
    match tabs_ui tenv timeline.selected_view timeline.views with
    | (.error e, tabPaints) => (.error e, [], tabPaints)
    | (.ok sel, tabPaints) =>
      let timeline' := { timeline with selected_view := sel }
      let cols' := set_timeline cols timeline_id timeline'
      match find_timeline cols' timeline_id with
      | none => (.ok none, [.errorLog missingMsg], tabPaints)
      | some tl =>
        match txn with
        | none => (.error (.txnFailed "failed to create txn"), [], tabPaints)
        | some _ =>
          match tl.views[tl.selected_view]? with
          | none => (.error .notesIndexOut, [], tabPaints)
          | some tab =>
            match tabViewShow senv tab reversed positions with
            | (.error e, logs, paints) => (.error e, logs, tabPaints ++ paints)
            | (.ok (act, _), logs, paints) => (.ok act, logs, tabPaints ++ paints)

/-! ## Derived views of a single row, used to state the claims -/

/-- How the row closure folds a rendered note's yielded action into the
`action` accumulator (src lines 301-303): a `Some` overwrites, a `None`
leaves the accumulator alone. -/
def applyYield (action y : Option NoteAction) : Option NoteAction :=
  match y with
  | some a => some a
  | none => action

/-- The action the row at display position `p` yields this frame: the
renderer's action when the note resolves and is unmuted, `none`
otherwise. -/
def rowYield (env : ShowEnv) (tab : TimelineTab) (reversed : Bool)
    (len p : Nat) : Option NoteAction :=
  match computeInd reversed len p with
  | none => none
  | some ind =>
    match tab.notes[ind]? with
    | none => none
    | some nr =>
      match env.resolve nr.key with
      | none => none
      | some note =>
        if env.isMuted note (env.rootId note.id) then none else env.render note

/-- The `rows_consumed` value the row at display position `p` returns:
`0` on resolution failure, `1` otherwise. -/
def rowConsumed (env : ShowEnv) (tab : TimelineTab) (reversed : Bool)
    (len p : Nat) : Nat :=
  match computeInd reversed len p with
  | none => 0
  | some ind =>
    match tab.notes[ind]? with
    | none => 0
    | some nr =>
      match env.resolve nr.key with
      | none => 0
      | some _ => 1

/-- The log events the row at display position `p` emits. -/
def rowLogs (env : ShowEnv) (tab : TimelineTab) (reversed : Bool)
    (len p : Nat) : List LogEvent :=
  match computeInd reversed len p with
  | none => []
  | some ind =>
    match tab.notes[ind]? with
    | none => []
    | some nr =>
      match env.resolve nr.key with
      | none => [.warnLog "failed to query note"]
      | some _ => []

/-- The paint events the row at display position `p` emits. -/
def rowPaints (env : ShowEnv) (tab : TimelineTab) (reversed : Bool)
    (len p : Nat) : List PaintEvent :=
  match computeInd reversed len p with
  | none => []
  | some ind =>
    match tab.notes[ind]? with
    | none => []
    | some nr =>
      match env.resolve nr.key with
      | none => []
      | some note =>
        if env.isMuted note (env.rootId note.id) then [] else [.note ind, .hline]

/-- Display position `p` is panic-free: the logical index computation
succeeds and lands inside the note list. -/
def posOk (tab : TimelineTab) (reversed : Bool) (len p : Nat) : Bool :=
  match computeInd reversed len p with
  | none => false
  | some ind => (tab.notes[ind]?).isSome

/-- The last `some` entry of a list of optional actions (`none` when no
entry is `some`). -/
def lastSome : List (Option NoteAction) → Option NoteAction
  | [] => none
  | x :: xs =>
    match lastSome xs with
    | some v => some v
    | none => x

/-! ## Helper lemmas -/

theorem checkedSub_of_le {a b : Nat} (h : b ≤ a) :
    checkedSub a b = some (a - b) := by
  simp [checkedSub, h]

theorem computeInd_of_lt (reversed : Bool) {len p : Nat} (h : p < len) :
    computeInd reversed len p = some (indexMap reversed len p) := by
  cases reversed
  · simp [computeInd, indexMap]
  · simp [computeInd, indexMap, checkedSub_of_le (Nat.le_of_lt h),
      checkedSub_of_le (show 1 ≤ len - p by omega)]

theorem indexMap_lt (reversed : Bool) {len p : Nat} (h : p < len) :
    indexMap reversed len p < len := by
  cases reversed <;> simp [indexMap] <;> omega

theorem show_row_resolve_none {env : ShowEnv} {tab : TimelineTab}
    {reversed : Bool} {len : Nat} (action : Option NoteAction) {p ind : Nat}
    {nr : NoteRef}
    (hci : computeInd reversed len p = some ind)
    (hq : tab.notes[ind]? = some nr)
    (hr : env.resolve nr.key = none) :
    show_row env tab reversed len action p =
      (.ok (action, 0), [.warnLog "failed to query note"], []) := by
  simp [show_row, hci, hq, hr]

theorem show_row_muted {env : ShowEnv} {tab : TimelineTab}
    {reversed : Bool} {len : Nat} {action : Option NoteAction} {p ind : Nat}
    {nr : NoteRef} {note : Note}
    (hci : computeInd reversed len p = some ind)
    (hq : tab.notes[ind]? = some nr)
    (hr : env.resolve nr.key = some note)
    (hm : env.isMuted note (env.rootId note.id) = true) :
    show_row env tab reversed len action p = (.ok (action, 1), [], []) := by
  simp [show_row, hci, hq, hr, hm]

theorem show_row_unmuted {env : ShowEnv} {tab : TimelineTab}
    {reversed : Bool} {len : Nat} {action : Option NoteAction} {p ind : Nat}
    {nr : NoteRef} {note : Note}
    (hci : computeInd reversed len p = some ind)
    (hq : tab.notes[ind]? = some nr)
    (hr : env.resolve nr.key = some note)
    (hm : env.isMuted note (env.rootId note.id) = false) :
    show_row env tab reversed len action p =
      (.ok (applyYield action (env.render note), 1), [],
        [.note ind, .hline]) := by
  simp only [show_row, hci, hq, hr, hm, Bool.not_false, if_true]
  cases env.render note <;> rfl

theorem show_row_eq {env : ShowEnv} {tab : TimelineTab}
    {reversed : Bool} {len : Nat} (action : Option NoteAction) {p : Nat}
    (h : posOk tab reversed len p = true) :
    show_row env tab reversed len action p =
      (.ok (applyYield action (rowYield env tab reversed len p),
            rowConsumed env tab reversed len p),
        rowLogs env tab reversed len p, rowPaints env tab reversed len p) := by
  unfold posOk at h
  cases hci : computeInd reversed len p with
  | none => rw [hci] at h; exact absurd h (by simp)
  | some ind =>
    rw [hci] at h
    have h' : (tab.notes[ind]?).isSome = true := h
    cases hq : tab.notes[ind]? with
    | none => rw [hq] at h'; exact absurd h' (by simp)
    | some nr =>
      cases hr : env.resolve nr.key with
      | none =>
        rw [show_row_resolve_none action hci hq hr]
        simp [rowYield, rowConsumed, rowLogs, rowPaints, hci, hq, hr, applyYield]
      | some note =>
        cases hm : env.isMuted note (env.rootId note.id)
        · rw [show_row_unmuted hci hq hr hm]
          simp [rowYield, rowConsumed, rowLogs, rowPaints, hci, hq, hr, hm]
        · rw [show_row_muted hci hq hr hm]
          simp [rowYield, rowConsumed, rowLogs, rowPaints, hci, hq, hr, hm,
            applyYield]

theorem show_rows_eq (env : ShowEnv) (tab : TimelineTab) (reversed : Bool)
    (len : Nat) (positions : List Nat) :
    ∀ action : Option NoteAction,
      (∀ p ∈ positions, posOk tab reversed len p = true) →
      show_rows env tab reversed len action positions =
        (.ok (positions.foldl
                (fun a p => applyYield a (rowYield env tab reversed len p))
                action,
              (positions.map (rowConsumed env tab reversed len)).sum),
          (positions.map (rowLogs env tab reversed len)).flatten,
          (positions.map (rowPaints env tab reversed len)).flatten) := by
  induction positions with
  | nil => intro action _; simp [show_rows]
  | cons p rest ih =>
    intro action h
    have hp := h p (List.mem_cons_self p rest)
    have hrest := fun q hq => h q (List.mem_cons_of_mem p hq)
    simp only [show_rows]
    rw [show_row_eq action hp]
    simp only []
    rw [ih _ hrest]
    simp

theorem foldl_applyYield (l : List (Option NoteAction)) :
    ∀ acc : Option NoteAction,
      l.foldl applyYield acc =
        match lastSome l with
        | some v => some v
        | none => acc := by
  induction l with
  | nil => intro acc; simp [lastSome]
  | cons x xs ih =>
    intro acc
    rw [List.foldl_cons, ih]
    cases hxs : lastSome xs with
    | some v => simp [lastSome, hxs]
    | none => cases x <;> simp [lastSome, hxs, applyYield]

theorem sum_map_ones {α : Type} (l : List α) (f : α → Nat)
    (h : ∀ p ∈ l, f p = 1) : (l.map f).sum = l.length := by
  induction l with
  | nil => simp
  | cons x xs ih =>
    simp only [List.map_cons, List.sum_cons, List.length_cons,
      h x (List.mem_cons_self x xs),
      ih (fun q hq => h q (List.mem_cons_of_mem x hq))]
    omega

theorem find?_set_timeline (l : List Timeline) (timeline_id : Nat)
    (t t' : Timeline)
    (hf : l.find? (fun x => x.id == timeline_id) = some t)
    (hid : t'.id = timeline_id) :
    (l.map (fun x => if x.id == timeline_id then t' else x)).find?
        (fun x => x.id == timeline_id) = some t' := by
  induction l with
  | nil => simp [List.find?] at hf
  | cons x xs ih =>
    cases hx : (x.id == timeline_id) with
    | false =>
      rw [List.find?_cons_of_neg _ (by simp [hx])] at hf
      rw [List.map_cons, show (if (x.id == timeline_id) = true then t' else x) = x
        from by simp [hx]]
      rw [List.find?_cons_of_neg _ (by simp [hx])]
      exact ih hf
    | true =>
      rw [List.map_cons, show (if (x.id == timeline_id) = true then t' else x) = t'
        from by simp [hx]]
      exact List.find?_cons_of_pos _ (by simp [hid])

/-! ## Concrete sample inputs -/

/-- A trivial tab-selector environment: no click, degenerate geometry. -/
def tenv0 : TabsEnv := ⟨none, fun _ => ⟨0, 0⟩, fun _ => 0, fun _ => 0, id, id⟩

/-- A tab-selector environment whose segment is 10 wide while the label
measures 20: the widened underline target must overflow the segment. -/
def tenv9 : TabsEnv := ⟨none, fun _ => ⟨0, 10⟩, fun _ => 20, fun _ => 0, id, id⟩

/-- A record store in which no key resolves. -/
def senv0 : ShowEnv := ⟨fun _ => none, id, fun _ _ => false, fun _ => none⟩

/-- An empty `Notes` tab. -/
def tabNotes : TimelineTab := ⟨[], .Notes⟩

/-- A tab holding three note refs with keys 0, 1, 2. -/
def tab3 : TimelineTab := ⟨[⟨0⟩, ⟨1⟩, ⟨2⟩], .Notes⟩

/-! ## Claim theorems -/

/-- C3: for every `N ≥ 0` and `reversed`, the display-position to
logical-index map `ind = reversed ? N - start_index - 1 : start_index`
is a bijection on `[0, N)`; in particular for `N = 3`, `reversed = true`,
display position 0 maps to logical index 2 and position 2 to 0. -/
theorem C3_index_map_bijection :
    (∀ (N : Nat) (reversed : Bool),
      Set.BijOn (indexMap reversed N) (Set.Iio N) (Set.Iio N)) ∧
    indexMap true 3 0 = 2 ∧ indexMap true 3 2 = 0 := by
  refine ⟨?_, by decide, by decide⟩
  intro N reversed
  refine ⟨?_, ?_, ?_⟩
  · intro x hx
    simp only [Set.mem_Iio] at *
    cases reversed
    · simpa [indexMap] using hx
    · simp [indexMap]
      omega
  · intro x hx y hy hxy
    simp only [Set.mem_Iio] at hx hy
    cases reversed <;> simp [indexMap] at hxy <;> omega
  · intro y hy
    simp only [Set.mem_Iio] at hy
    refine ⟨indexMap reversed N y, ?_, ?_⟩
    · simp only [Set.mem_Iio]
      cases reversed
      · simpa [indexMap] using hy
      · simp [indexMap]
        omega
    · cases reversed
      · simp [indexMap]
      · simp [indexMap]
        omega

/-- C10 (implicit): when the virtualizer supplies `start_index ∈ [0, len)`
with `len` the note count captured at the start of the pass, the logical
index is always in `[0, len)`, so the unguarded `self.tab.notes[ind]`
never goes out of bounds and the reversed subtraction never underflows
(the row closure returns without a panic); without that precondition the
reversed `len - start_index - 1` underflows and panics. -/
theorem C10_index_safety :
    (∀ (reversed : Bool) (len p : Nat), p < len →
      computeInd reversed len p = some (indexMap reversed len p) ∧
      indexMap reversed len p < len) ∧
    (∀ (env : ShowEnv) (tab : TimelineTab) (reversed : Bool)
        (action : Option NoteAction) (p : Nat), p < tab.notes.length →
      (show_row env tab reversed tab.notes.length action p).1 =
        .ok (applyYield action (rowYield env tab reversed tab.notes.length p),
          rowConsumed env tab reversed tab.notes.length p)) ∧
    (∀ (env : ShowEnv) (tab : TimelineTab) (action : Option NoteAction),
      (show_row env tab true tab.notes.length action tab.notes.length).1 =
        .error .subUnderflow) := by
  refine ⟨fun reversed len p hp => ⟨computeInd_of_lt reversed hp, indexMap_lt reversed hp⟩,
    ?_, ?_⟩
  · intro env tab reversed action p hp
    have hok : posOk tab reversed tab.notes.length p = true := by
      unfold posOk
      rw [computeInd_of_lt reversed hp]
      have := indexMap_lt reversed hp
      cases hq : tab.notes[indexMap reversed tab.notes.length p]? with
      | none =>
        exact absurd (List.getElem?_eq_none_iff.1 hq) (by omega)
      | some nr => simp [hq]
    rw [show_row_eq action hok]
  · intro env tab action
    simp [show_row, computeInd, checkedSub]

/-- C10 witness: length-3 tab, `reversed = true`, position 0 is safe and
position 3 (= len) underflows. -/
theorem C10_index_safety_witness :
    (computeInd true 3 0 = some (indexMap true 3 0) ∧ indexMap true 3 0 < 3) ∧
    (show_row senv0 tab3 true tab3.notes.length none 0).1 =
      .ok (applyYield none (rowYield senv0 tab3 true tab3.notes.length 0),
        rowConsumed senv0 tab3 true tab3.notes.length 0) ∧
    (show_row senv0 tab3 true tab3.notes.length none tab3.notes.length).1 =
      .error .subUnderflow :=
  ⟨C10_index_safety.1 true 3 0 (by decide),
    C10_index_safety.2.1 senv0 tab3 true none 0 (by decide),
    C10_index_safety.2.2 senv0 tab3 none⟩

/-- C2 amended: with zero tabs, `tabs_ui` is not a no-op returning 0 — it
paints the tab row scaffolding and then panics at
`tab_res.inner()[sel as usize]`, the per-tab result list being empty. -/
theorem C2_zero_tabs_panics (tenv : TabsEnv) (selected : Nat) :
    tabs_ui tenv selected [] = (.error .tabSelOut, [.hline]) := by
  simp [tabs_ui]

/-- C2 counterexample: at the concrete input (no click, selected 0, zero
tabs) `tabs_ui` panics instead of returning index 0. -/
theorem C2_zero_tabs_counterexample :
    (tabs_ui tenv0 0 []).1 = Except.error Panic.tabSelOut ∧
    (tabs_ui tenv0 0 []).1 ≠ Except.ok 0 := by
  refine ⟨rfl, fun hcontra => ?_⟩
  rw [show (tabs_ui tenv0 0 []).1 = Except.error Panic.tabSelOut from rfl] at hcontra
  exact Except.noConfusion hcontra

/-- C9 amended: the target underline span has width `w_text * 1.15` and is
centered on the segment, but it is NOT clamped: whenever the widened width
exceeds the segment's extent, the target extends beyond the segment on
both sides.  The selected segment's cell is exactly
`shrink_range_to_width(segment_range, label_width * 1.15)`. -/
theorem C9_underline_target_unclamped (r : Rangef) (w : ℚ) :
    ((shrink_range_to_width r w).max - (shrink_range_to_width r w).min = w ∧
      (shrink_range_to_width r w).min + (shrink_range_to_width r w).max =
        r.min + r.max) ∧
    (r.max - r.min < w →
      (shrink_range_to_width r w).min < r.min ∧
      r.max < (shrink_range_to_width r w).max) ∧
    (∀ (tenv : TabsEnv) (views : List TimelineTab) (v : TimelineTab) (sel : Nat),
      views[sel]? = some v →
      tab_cell tenv sel views sel =
        (shrink_range_to_width (tenv.segmentRange sel)
          (tenv.labelWidth v.filter.label * (23 / 20)), tenv.underlineY sel)) := by
  refine ⟨⟨?_, ?_⟩, fun hlt => ⟨?_, ?_⟩, fun tenv views v sel hg => ?_⟩
  · simp [shrink_range_to_width]
  · simp [shrink_range_to_width]
  · simp only [shrink_range_to_width]; linarith
  · simp only [shrink_range_to_width]; linarith
  · simp [tab_cell, hg]

/-- C9 witness: a segment spanning `[0, 10]` with widened label width 23
yields the target span `[-13/2, 33/2]`, sticking out on both sides. -/
theorem C9_underline_target_unclamped_witness :
    ((shrink_range_to_width ⟨0, 10⟩ 23).max - (shrink_range_to_width ⟨0, 10⟩ 23).min
        = 23 ∧
      (shrink_range_to_width ⟨0, 10⟩ 23).min + (shrink_range_to_width ⟨0, 10⟩ 23).max
        = 0 + 10) ∧
    ((shrink_range_to_width ⟨0, 10⟩ 23).min < 0 ∧
      (10 : ℚ) < (shrink_range_to_width ⟨0, 10⟩ 23).max) ∧
    tab_cell tenv9 0 [tabNotes] 0 =
      (shrink_range_to_width (tenv9.segmentRange 0)
        (tenv9.labelWidth tabNotes.filter.label * (23 / 20)), tenv9.underlineY 0) :=
  ⟨(C9_underline_target_unclamped ⟨0, 10⟩ 23).1,
    (C9_underline_target_unclamped ⟨0, 10⟩ 23).2.1 (by norm_num),
    (C9_underline_target_unclamped ⟨0, 10⟩ 23).2.2 tenv9 [tabNotes] tabNotes 0 rfl⟩

/-- C9 counterexample: at the concrete input (segment `[0, 10]`, measured
label width 20, so widened width 23) the selected segment's target
underline span ends at `33/2 > 10` — it extends beyond the segment's
extent, refuting the claimed clamping. -/
theorem C9_underline_clamp_counterexample :
    (tab_cell tenv9 0 [tabNotes] 0).1.max > (tenv9.segmentRange 0).max := by
  show (tab_cell tenv9 0 [tabNotes] 0).1.max > 10
  norm_num [tab_cell, tenv9, tabNotes, shrink_range_to_width]

/-- C7: when the requested timeline id is not found among the caller's
columns, `timeline_ui` logs an error, paints nothing and returns no
action, without crashing. -/
theorem C7_missing_timeline (txn : Option Unit) (cols : Columns)
    (timeline_id : Nat) (tenv : TabsEnv) (senv : ShowEnv) (reversed : Bool)
    (positions : List Nat)
    (h : find_timeline cols timeline_id = none) :
    timeline_ui txn cols timeline_id tenv senv reversed positions =
      (.ok none, [.errorLog missingMsg], []) := by
  simp [timeline_ui, h]

/-- C7 witness: an empty column set has no timeline with id 0. -/
theorem C7_missing_timeline_witness :
    timeline_ui none ⟨[]⟩ 0 tenv0 senv0 false [] =
      (.ok none, [.errorLog missingMsg], []) :=
  C7_missing_timeline none ⟨[]⟩ 0 tenv0 senv0 false [] rfl

/-- C4: a row whose note key fails to resolve against the snapshot logs a
warning, returns `rows_consumed = 0` (reserving no space and painting
nothing), and the remaining rows of the list are still processed — the
loop over `p :: rest` produces exactly the result of the loop over `rest`
with the warning prepended. -/
theorem C4_resolution_failure_skips_row (env : ShowEnv) (tab : TimelineTab)
    (reversed : Bool) (len : Nat) (action : Option NoteAction) (p ind : Nat)
    (nr : NoteRef) (rest : List Nat)
    (hci : computeInd reversed len p = some ind)
    (hq : tab.notes[ind]? = some nr)
    (hr : env.resolve nr.key = none) :
    show_row env tab reversed len action p =
      (.ok (action, 0), [.warnLog "failed to query note"], []) ∧
    show_rows env tab reversed len action (p :: rest) =
      ((show_rows env tab reversed len action rest).1,
        .warnLog "failed to query note" ::
          (show_rows env tab reversed len action rest).2.1,
        (show_rows env tab reversed len action rest).2.2) := by
  have hrow := show_row_resolve_none action hci hq hr
  refine ⟨hrow, ?_⟩
  rcases hs : show_rows env tab reversed len action rest with ⟨res, logs2, paints2⟩
  cases res with
  | error e => simp [show_rows, hrow, hs]
  | ok pair =>
    obtain ⟨a2, t2⟩ := pair
    simp [show_rows, hrow, hs]

/-- C4 witness: with a store that resolves nothing, position 0 of a 3-note
tab consumes 0 rows, warns, and the loop continues over the rest. -/
theorem C4_resolution_failure_skips_row_witness :
    show_row senv0 tab3 false 3 none 0 =
      (.ok (none, 0), [.warnLog "failed to query note"], []) ∧
    show_rows senv0 tab3 false 3 none [0, 1] =
      ((show_rows senv0 tab3 false 3 none [1]).1,
        .warnLog "failed to query note" ::
          (show_rows senv0 tab3 false 3 none [1]).2.1,
        (show_rows senv0 tab3 false 3 none [1]).2.2) :=
  C4_resolution_failure_skips_row senv0 tab3 false 3 none 0 0 ⟨0⟩ [1]
    rfl rfl rfl

/-- C5: a resolved row whose mute predicate (on the note and its thread
root) is true renders nothing — no content, no separator — yet returns
`rows_consumed = 1`; and over a full traversal of an `N`-item tab in
which item `j` is muted and every item resolves (the others unmuted), the
total rows consumed is exactly `N`. -/
theorem C5_muted_row_keeps_alignment :
    (∀ (env : ShowEnv) (tab : TimelineTab) (reversed : Bool) (len : Nat)
        (action : Option NoteAction) (p ind : Nat) (nr : NoteRef) (note : Note),
      computeInd reversed len p = some ind →
      tab.notes[ind]? = some nr →
      env.resolve nr.key = some note →
      env.isMuted note (env.rootId note.id) = true →
      show_row env tab reversed len action p = (.ok (action, 1), [], [])) ∧
    (∀ (env : ShowEnv) (tab : TimelineTab) (reversed : Bool) (j : Nat),
      j < tab.notes.length →
      (∀ nr ∈ tab.notes, (env.resolve nr.key).isSome = true) →
      (∀ (i : Nat) (nr : NoteRef) (note : Note), tab.notes[i]? = some nr →
        env.resolve nr.key = some note →
        env.isMuted note (env.rootId note.id) = (i == j)) →
      ∃ act, (tabViewShow env tab reversed (List.range tab.notes.length)).1 =
        .ok (act, tab.notes.length)) := by
  refine ⟨fun env tab reversed len action p ind nr note hci hq hr hm =>
    show_row_muted hci hq hr hm, ?_⟩
  intro env tab reversed j hj hall hmut
  have hok : ∀ p ∈ List.range tab.notes.length,
      posOk tab reversed tab.notes.length p = true := by
    intro p hp
    have hplt : p < tab.notes.length := List.mem_range.1 hp
    unfold posOk
    rw [computeInd_of_lt reversed hplt]
    have hindlt := indexMap_lt reversed hplt
    cases hq : tab.notes[indexMap reversed tab.notes.length p]? with
    | none => exact absurd (List.getElem?_eq_none_iff.1 hq) (by omega)
    | some nr => simp [hq]
  have hsum := sum_map_ones (List.range tab.notes.length)
    (rowConsumed env tab reversed tab.notes.length) ?_
  · refine ⟨(List.range tab.notes.length).foldl
      (fun a p => applyYield a (rowYield env tab reversed tab.notes.length p))
      none, ?_⟩
    unfold tabViewShow
    rw [show_rows_eq env tab reversed tab.notes.length
      (List.range tab.notes.length) none hok]
    rw [show (((List.range tab.notes.length).map
        (rowConsumed env tab reversed tab.notes.length)).sum)
      = tab.notes.length from hsum.trans (List.length_range tab.notes.length)]
  · intro p hp
    have hplt : p < tab.notes.length := List.mem_range.1 hp
    unfold rowConsumed
    rw [computeInd_of_lt reversed hplt]
    have hindlt := indexMap_lt reversed hplt
    cases hq : tab.notes[indexMap reversed tab.notes.length p]? with
    | none => exact absurd (List.getElem?_eq_none_iff.1 hq) (by omega)
    | some nr =>
      have hmem := List.getElem?_mem hq
      have hsome := hall nr hmem
      cases hr : env.resolve nr.key with
      | none => rw [hr] at hsome; exact absurd hsome (by simp)
      | some note => simp [hq, hr]

/-- A record store resolving every key `k` to the note `⟨k, k⟩`, muting
exactly the note with key 1, rendering no actions. -/
def senv5 : ShowEnv :=
  ⟨fun k => some ⟨k, k⟩, id, fun note _ => note.key == 1, fun _ => none⟩

/-- C5 witness: in the 3-note tab with exactly item 1 muted, the muted
row consumes 1 while painting nothing, and the full traversal consumes
exactly 3 rows. -/
theorem C5_muted_row_keeps_alignment_witness :
    show_row senv5 tab3 false 3 none 1 = (.ok (none, 1), [], []) ∧
    ∃ act, (tabViewShow senv5 tab3 false (List.range tab3.notes.length)).1 =
      .ok (act, tab3.notes.length) := by
  constructor
  · exact C5_muted_row_keeps_alignment.1 senv5 tab3 false 3 none 1 1 ⟨1⟩ ⟨1, 1⟩
      rfl rfl rfl (by decide)
  · refine C5_muted_row_keeps_alignment.2 senv5 tab3 false 1 (by decide)
      (by decide) ?_
    intro i nr note hg hr
    have hi : i < 3 := by
      by_contra hge
      rw [List.getElem?_eq_none_iff.2 (by simpa [tab3] using Nat.le_of_not_lt hge)]
        at hg
      exact Option.noConfusion hg
    interval_cases i <;> (simp_all [senv5, tab3]; cases hg; cases hr; simp)

/-- C6: later-processed rows' actions overwrite the stored one, so the
returned action is that of the last (highest display-position) row that
yielded one — the loop result is the last `some` among the per-row
yields, not the first. -/
theorem C6_last_action_wins (env : ShowEnv) (tab : TimelineTab)
    (reversed : Bool) (positions : List Nat)
    (h : ∀ p ∈ positions, posOk tab reversed tab.notes.length p = true) :
    (tabViewShow env tab reversed positions).1 =
      .ok (lastSome (positions.map (rowYield env tab reversed tab.notes.length)),
        (positions.map (rowConsumed env tab reversed tab.notes.length)).sum) := by
  unfold tabViewShow
  rw [show_rows_eq env tab reversed tab.notes.length positions none h]
  have h1 : positions.foldl
      (fun a p => applyYield a (rowYield env tab reversed tab.notes.length p)) none
      = lastSome (positions.map (rowYield env tab reversed tab.notes.length)) := by
    rw [← List.foldl_map, foldl_applyYield]
    cases lastSome (positions.map (rowYield env tab reversed tab.notes.length)) <;>
      rfl
  rw [show ((Except.ok (positions.foldl
      (fun a p => applyYield a (rowYield env tab reversed tab.notes.length p)) none,
      (positions.map (rowConsumed env tab reversed tab.notes.length)).sum) :
        Except Panic (Option NoteAction × Nat)),
      (positions.map (rowLogs env tab reversed tab.notes.length)).flatten,
      (positions.map (rowPaints env tab reversed tab.notes.length)).flatten).1
    = Except.ok (positions.foldl
      (fun a p => applyYield a (rowYield env tab reversed tab.notes.length p)) none,
      (positions.map (rowConsumed env tab reversed tab.notes.length)).sum)
    from rfl]
  rw [h1]

/-- A record store resolving every key `k` to `⟨k, k⟩`, muting nothing,
whose renderer yields the action `k + 10` for the note with key `k`. -/
def senv6 : ShowEnv :=
  ⟨fun k => some ⟨k, k⟩, id, fun _ _ => false, fun note => some (note.key + 10)⟩

/-- C6 witness: rows 0 and 1 both yield actions (10 and 11); the view
returns the later row's action 11, not the first. -/
theorem C6_last_action_wins_witness :
    (tabViewShow senv6 tab3 false [0, 1]).1 = .ok (some 11, 2) := by
  have h := C6_last_action_wins senv6 tab3 false [0, 1] (by decide)
  exact h.trans (by rfl)

/-- C8: for every tab count `k ≥ 1` and selected index in `[0, k)` (and
any click landing on an existing segment), `tabs_ui` returns a value in
`[0, k)`, so the `timeline.selected_view = tabs_ui(..)` assignment
preserves the invariant `selected_view < len(tabs)`. -/
theorem C8_tabs_ui_selection_in_range (tenv : TabsEnv) (selected : Nat)
    (views : List TimelineTab)
    (hsel : selected < views.length)
    (hclick : ∀ j, tenv.click = some j → j < views.length) :
    ∃ r paints, tabs_ui tenv selected views = (.ok r, paints) ∧
      r < views.length ∧
      ∀ t : Timeline, t.views = views →
        ({ t with selected_view := r } : Timeline).selected_view <
          ({ t with selected_view := r } : Timeline).views.length := by
  have hselres : (tabsSelected tenv.click selected).getD 0 < views.length := by
    cases hc : tenv.click with
    | none => simpa [tabsSelected, hc] using hsel
    | some j => simpa [tabsSelected, hc] using hclick j hc
  have hget : ((List.range views.length).map
      (tab_cell tenv ((tabsSelected tenv.click selected).getD 0) views))[
        (tabsSelected tenv.click selected).getD 0]? =
      some (tab_cell tenv ((tabsSelected tenv.click selected).getD 0) views
        ((tabsSelected tenv.click selected).getD 0)) := by
    rw [List.getElem?_map, List.getElem?_range hselres]
    rfl
  have h1 : (tabs_ui tenv selected views).1 =
      .ok ((tabsSelected tenv.click selected).getD 0) := by
    simp only [tabs_ui]
    rw [hget]
  refine ⟨(tabsSelected tenv.click selected).getD 0,
    (tabs_ui tenv selected views).2, ?_, hselres, fun t ht => ?_⟩
  · rw [← h1]
  · simpa [ht] using hselres

/-- C8 witness: one tab, selected 0, no click — the returned index is in
range and the assignment keeps the invariant. -/
theorem C8_tabs_ui_selection_in_range_witness :
    ∃ r paints, tabs_ui tenv0 0 [tabNotes] = (.ok r, paints) ∧
      r < [tabNotes].length ∧
      ∀ t : Timeline, t.views = [tabNotes] →
        ({ t with selected_view := r } : Timeline).selected_view <
          ({ t with selected_view := r } : Timeline).views.length :=
  C8_tabs_ui_selection_in_range tenv0 0 [tabNotes] (by decide)
    (fun j hj => by simp [tenv0] at hj)

/-- C1 amended: when snapshot (transaction) creation fails during
`timeline_ui` (with the timeline present and the tab bar drawn), the view
does NOT log the failure and return `None` — `Transaction::new(ndb)
.expect("failed to create txn")` panics, aborting with the tab bar
already painted and an empty log. -/
theorem C1_txn_failure_panics (cols : Columns) (timeline_id : Nat)
    (tenv : TabsEnv) (senv : ShowEnv) (reversed : Bool) (positions : List Nat)
    (timeline : Timeline) (sel : Nat) (tabPaints : List PaintEvent)
    (hf : find_timeline cols timeline_id = some timeline)
    (ht : tabs_ui tenv timeline.selected_view timeline.views =
      (.ok sel, tabPaints)) :
    timeline_ui none cols timeline_id tenv senv reversed positions =
      (.error (.txnFailed "failed to create txn"), [], tabPaints) := by
  have hf' : cols.timelines.find? (fun t => t.id == timeline_id) = some timeline :=
    hf
  have hid : timeline.id = timeline_id := by simpa using List.find?_some hf'
  have hsecond : find_timeline (set_timeline cols timeline_id
      { timeline with selected_view := sel }) timeline_id =
      some { timeline with selected_view := sel } :=
    find?_set_timeline cols.timelines timeline_id timeline
      { timeline with selected_view := sel } hf' hid
  simp only [timeline_ui, hf, ht, hsecond]

/-- The single-timeline column set used as the concrete C1 input. -/
def cols1 : Columns := ⟨[⟨1, [tabNotes], 0⟩]⟩

/-- C1 witness / counterexample input: with the timeline found and the
tab bar drawn, a failed transaction makes `timeline_ui` panic with the
expect message, logging nothing. -/
theorem C1_txn_failure_panics_witness :
    timeline_ui none cols1 1 tenv0 senv0 false [] =
      (.error (.txnFailed "failed to create txn"), [],
        (tabs_ui tenv0 0 [tabNotes]).2) :=
  C1_txn_failure_panics cols1 1 tenv0 senv0 false [] ⟨1, [tabNotes], 0⟩
    ((tabs_ui tenv0 0 [tabNotes]).1.toOption.getD 0) (tabs_ui tenv0 0 [tabNotes]).2
    rfl rfl

/-- C1 counterexample: at the concrete failing input the view's result is
the propagated panic, not `Except.ok none`, and the log is empty rather
than holding one error — refuting "logs the error exactly once ... and
returns no action". -/
theorem C1_txn_failure_counterexample :
    (timeline_ui none cols1 1 tenv0 senv0 false []).1 =
      Except.error (Panic.txnFailed "failed to create txn") ∧
    (timeline_ui none cols1 1 tenv0 senv0 false []).2.1 = [] :=
  ⟨rfl, rfl⟩

end NotedeckTimeline
